import Mathlib

/-!
Shallow embedding of the poster layout-and-rendering routines of the
photo-calendar test-image generator scripts, together with theorems
settling the spec's claims about them.

The embedded code lives in:
- `src/create_test_poster.py` (`create_korean_poster`, `get_centered_x`);
- `src/create-test-event-image.py` (`create_test_event_image`,
  `create_concert_poster`);
- `src/create-test-image.py` (`create_test_image`);
- `src/test-images/test-event.py` (`create_test_event_image`).

Host-environment facts (which font paths exist, whether loading a font or
drawing an arc succeeds, which directories exist) are external inputs to
these scripts; they are passed explicitly as parameters of the embedded
functions.
-/

namespace PhotoCalendar

/-! ## Fonts and font resolution

From the try/except font-setup blocks of `create_test_event_image`
(create-test-event-image.py lines 20-47), `create_concert_poster`,
`create_test_image` (create-test-image.py lines 18-33) and
`create_korean_poster`: scan an ordered list of candidate paths with
`os.path.exists`, load the first existing one with `ImageFont.truetype`,
and fall back to `ImageFont.load_default()` when none exists or when any
step of the try block raises.
-/

/-- A font handle as the scripts produce it: either a TrueType font loaded
from a path at a pixel size (`ImageFont.truetype(path, size)`), or PIL's
built-in default bitmap font (`ImageFont.load_default()`). -/
inductive ResolvedFont where
  | truetype (path : String) (size : Nat)
  | loadDefault
deriving DecidableEq, Repr

/-- Host facts consumed by font resolution: whether a path exists on the
filesystem (`os.path.exists`), and whether `ImageFont.truetype` succeeds
on that path at that size (as opposed to raising). -/
structure FontHost where
  pathExists : String → Bool
  loadOk : String → Nat → Bool

/-- The first candidate path that exists on the host: the `for font_path
in font_paths: if os.path.exists(font_path): ...; break` scan. -/
def firstExisting (host : FontHost) : List String → Option String
  | [] => none
  | p :: rest => if host.pathExists p then some p else firstExisting host rest

/-- Font resolution as the scripts implement it. The whole scan runs inside
one `try:` block; the first existing path is loaded, and a `break` ends the
scan. A load error on that path raises out of the loop into the bare
`except:` handler, which binds the default font; if no candidate path
exists, `if not font: font = ImageFont.load_default()` also yields the
default font. The function is total: no exception escapes. -/
def resolveFont (host : FontHost) (candidates : List String) (size : Nat) :
    ResolvedFont :=
  match firstExisting host candidates with
  | none => ResolvedFont.loadDefault
  | some p =>
      if host.loadOk p size then ResolvedFont.truetype p size
      else ResolvedFont.loadDefault

/-- A sequence of independent font resolutions within one process, in call
order (each script resolves each tier's font in turn). -/
def runResolutions (host : FontHost) (reqs : List (List String × Nat)) :
    List ResolvedFont :=
  reqs.map fun r => resolveFont host r.1 r.2

/-! ## Text metrics and centering

From `get_centered_x` in create_test_poster.py (lines 62-70):

```
def get_centered_x(text, font):
    try:
        bbox = draw.textbbox((0, 0), text, font=font)
        text_width = bbox[2] - bbox[0]
        return (width - text_width) // 2
    except:
        text_width = draw.textsize(text, font=font)[0]
        return (width - text_width) // 2
```

`//` is Python floor division, embedded as `Int.fdiv`.
-/

/-- The measurement oracles a PIL draw object exposes. `textbbox` is the
precise bounding-box API of newer PIL; it may be absent or may fail, so it
returns `Option` (``none`` is the raising/absent case caught by the bare
`except:`). `textsize` is the legacy coarse width/height API, total. -/
structure Metrics where
  textbbox : String → Option (Int × Int × Int × Int)
  textsize : String → Nat × Nat

/-- The text width `get_centered_x` computes: `bbox[2] - bbox[0]` when
`textbbox` succeeds, else `textsize(...)[0]`. -/
def measuredWidth (m : Metrics) (text : String) : Int :=
  match m.textbbox text with
  | some (x0, _, x1, _) => x1 - x0
  | none => ((m.textsize text).1 : Int)

/-- `get_centered_x`: `(width - text_width) // 2` in both branches, with
the width taken from whichever measurement API succeeded. -/
def get_centered_x (m : Metrics) (width : Int) (text : String) : Int :=
  Int.fdiv (width - measuredWidth m text) 2

/-! ## Draw commands -/

/-- A fill color as the scripts pass it to `draw.text`: a color
string (`'black'`, `'white'`, `'#f39c12'`) or an RGB triple. -/
inductive Color where
  | named (s : String)
  | rgb (r g b : Nat)
deriving DecidableEq, Repr

/-- A fully resolved text draw command:
`draw.text((x, y), text, fill=color, font=..., anchor=...)`. -/
structure TextCmd where
  x : Int
  y : Int
  text : String
  color : Color
  anchor : Option String
deriving DecidableEq, Repr

/-! ## create_test_event_image detail loop

create-test-event-image.py lines 69-75:

```
y_position = 120
for line in details:
    draw.text((50, y_position), line, fill='black', font=body_font)
    y_position += 35
```
-/

/-- The detail-rendering loop of `create_test_event_image`: every line of
`details`, blank or not, is drawn at x = 50 with fill `'black'`, and the
cursor advances by 35 after each line. -/
def eventDetailLoop (y0 : Int) : List String → List TextCmd
  | [] => []
  | line :: rest =>
      { x := 50, y := y0, text := line, color := Color.named "black",
        anchor := none } :: eventDetailLoop (y0 + 35) rest

/-- The loop run from its initial cursor position `y_position = 120`. -/
def eventDetails (lines : List String) : List TextCmd :=
  eventDetailLoop 120 lines

/-! ## create_concert_poster detail loop

create-test-event-image.py lines 149-156 (`width = 800`):

```
y_position = 300
for line in concert_info:
    x_position = 50 if line.startswith('•') else width//2 - 150
    color = '#f39c12' if '티켓' in line or '가격' in line else 'white'
    draw.text((x_position, y_position), line, fill=color, font=body_font)
    y_position += 40
```
-/

/-- Python's `str.startswith`: the pattern's characters are a prefix of
the string's characters. -/
def pyStartsWith (s pat : String) : Bool :=
  pat.data.isPrefixOf s.data

/-- Substring containment over character lists (helper for `pyIn`). -/
def hasSubstr (pat : List Char) : List Char → Bool
  | [] => pat.isEmpty
  | c :: rest => pat.isPrefixOf (c :: rest) || hasSubstr pat rest

/-- Python's `in` operator on strings: substring containment. -/
def pyIn (pat s : String) : Bool :=
  hasSubstr pat.data s.data

/-- The concert loop's x: `50 if line.startswith('•') else width//2 - 150`
with `width = 800`. -/
def concertX (line : String) : Int :=
  if pyStartsWith line "•" then 50 else Int.fdiv 800 2 - 150

/-- The concert loop's color:
`'#f39c12' if '티켓' in line or '가격' in line else 'white'`. -/
def concertColor (line : String) : Color :=
  if pyIn "티켓" line || pyIn "가격" line then Color.named "#f39c12"
  else Color.named "white"

/-- The detail-rendering loop of `create_concert_poster`: one `draw.text`
per line at the per-line x and color above, cursor advancing by 40. -/
def concertLoop (y0 : Int) : List String → List TextCmd
  | [] => []
  | line :: rest =>
      { x := concertX line, y := y0, text := line,
        color := concertColor line, anchor := none } ::
        concertLoop (y0 + 40) rest

/-- The loop run from its initial cursor position `y_position = 300`. -/
def concertCommands (lines : List String) : List TextCmd :=
  concertLoop 300 lines

/-- The `concert_info` line list of `create_concert_poster`. -/
def concert_info : List String :=
  ["",
   "2025년 3월 22일 토요일",
   "오후 6:00 - 11:00",
   "",
   "서울 올림픽공원",
   "올림픽홀",
   "",
   "출연 아티스트:",
   "• 아이유",
   "• BTS",
   "• NewJeans",
   "• 악뮤",
   "",
   "티켓 오픈:",
   "2025년 2월 1일 오후 2시",
   "",
   "가격: 99,000원 ~ 150,000원",
   "",
   "예매: www.springfest.kr"]

/-! ## test-images/test-event.py text commands

`create_test_event_image` there is straight-line code: every `draw.text`
call uses x = `width//2` = 400 and `anchor='mt'` (centered), including the
three bullet lines (lines 73-82). Colors are RGB triples
(`black = (0,0,0)`, `blue = (0,100,200)`, `gray = (100,100,100)`); the
cursor increments are the explicit `y_position += ...` statements. -/
def testEventCommands : List TextCmd :=
  [⟨400, 50, "TECH CONFERENCE 2025", Color.rgb 0 100 200, some "mt"⟩,
   ⟨400, 170, "Date: December 15, 2025", Color.rgb 0 0 0, some "mt"⟩,
   ⟨400, 220, "Time: 2:00 PM - 6:00 PM", Color.rgb 0 0 0, some "mt"⟩,
   ⟨400, 270, "Location: COEX Convention Center", Color.rgb 0 0 0, some "mt"⟩,
   ⟨400, 320, "Seoul, South Korea", Color.rgb 100 100 100, some "mt"⟩,
   ⟨400, 420, "Join us for the biggest tech event of the year!",
     Color.rgb 0 0 0, some "mt"⟩,
   ⟨400, 460, "• AI & Machine Learning", Color.rgb 0 0 0, some "mt"⟩,
   ⟨400, 495, "• Cloud Computing", Color.rgb 0 0 0, some "mt"⟩,
   ⟨400, 530, "• Web Development", Color.rgb 0 0 0, some "mt"⟩]

/-! ## Corner ornaments

create_test_poster.py lines 152-166 (`width = 800`, `height = 1200`,
`corner_size = 50`): for each of the four corners, `try: draw.arc([corner,
corner+50], 0, 90, fill=accent_color, width=3)` and on any error
`except: draw.rectangle([corner, (corner[0]+10, corner[1]+10)],
fill=accent_color)`. -/

/-- A decorative corner element: a quarter-arc over a bounding box with
start/end angles and stroke width, or a filled square given by its two
corner points. -/
inductive Ornament where
  | arc (x0 y0 x1 y1 : Int) (startAngle endAngle : Int) (strokeWidth : Int)
  | square (x0 y0 x1 y1 : Int)
deriving DecidableEq, Repr

/-- One corner ornament: the quarter-arc (0 to 90 degrees) over the 50x50
box at the corner when the renderer supports `draw.arc`; otherwise the
`except:` branch draws the fixed 10-pixel square. Total: neither branch
raises. -/
def drawCorner (arcSupported : Bool) (c : Int × Int) : Ornament :=
  if arcSupported then Ornament.arc c.1 c.2 (c.1 + 50) (c.2 + 50) 0 90 3
  else Ornament.square c.1 c.2 (c.1 + 10) (c.2 + 10)

/-- The four corner positions of `create_korean_poster`:
`[(50, 50), (width-50-corner_size, 50), (50, height-50-corner_size),
(width-50-corner_size, height-50-corner_size)]`. -/
def posterCorners : List (Int × Int) :=
  [(50, 50), (800 - 50 - 50, 50), (50, 1200 - 50 - 50),
   (800 - 50 - 50, 1200 - 50 - 50)]

/-- The corner-ornament pass: one ornament per corner, in order. -/
def cornerOrnaments (arcSupported : Bool) : List Ornament :=
  posterCorners.map (drawCorner arcSupported)

/-! ## Persistence

The persist step is `image.save(path)` (PIL, an external dependency):
it opens the path for writing, which fails when the parent directory is
missing or the location is unwritable, and it never creates directories
(standard file-open semantics). Paths are modelled as a parent directory
plus a file name; the filesystem as the set of existing directories plus
a writability flag. -/

/-- An output path, split into its parent directory and file name. -/
structure OutPath where
  dir : String
  file : String
deriving DecidableEq, Repr

/-- Filesystem state seen by one generation call. -/
structure FS where
  dirs : List String
  writable : Bool

/-- Outcome of a save attempt. The two error outcomes are uncaught Python
exceptions (none of the scripts wraps `image.save` in a try/except), hence
caller-visible and fatal for that call, with no retry. -/
inductive SaveResult where
  | ok
  | dirMissing
  | notWritable
deriving DecidableEq, Repr

/-- `image.save(path)`: succeeds when the parent directory exists and the
filesystem is writable; raises otherwise; creates no directories. -/
def imageSave (fs : FS) (p : OutPath) : SaveResult :=
  if fs.dirs.contains p.dir then
    (if fs.writable then SaveResult.ok else SaveResult.notWritable)
  else SaveResult.dirMissing

/-- `os.makedirs(d, exist_ok=True)`: ensures directory `d` exists. -/
def makedirs (fs : FS) (d : String) : FS :=
  { fs with dirs := if fs.dirs.contains d then fs.dirs else d :: fs.dirs }

/-- The persist step of `create_test_image` (create-test-image.py lines
41-43): `img.save(filename)` with no directory creation anywhere in that
script. -/
def createTestImagePersist (fs : FS) (p : OutPath) : SaveResult :=
  imageSave fs p

/-- The `__main__` persist flow of create-test-event-image.py (lines
230-238): `os.makedirs("test-images", exist_ok=True)` first, then each
generator saves into that directory. -/
def eventImageMainPersist (fs : FS) (file : String) : SaveResult :=
  imageSave (makedirs fs "test-images") ⟨"test-images", file⟩

end PhotoCalendar

namespace PhotoCalendar

/-! ## Claim C1: centering clamping -/

/-- A metrics oracle reporting a 900-pixel-wide string through the precise
bounding-box API: wider than the 800-pixel canvas of
`create_korean_poster`. -/
def metricsWide : Metrics :=
  { textbbox := fun _ => some (0, 0, 900, 40), textsize := fun _ => (900, 40) }

/-- A metrics oracle reporting a 100-pixel-wide string through the precise
bounding-box API. -/
def metricsFit : Metrics :=
  { textbbox := fun _ => some (10, 0, 110, 40), textsize := fun _ => (100, 40) }

/-- Claim C1, counterexample: for a string measured 900 pixels wide on the
800-pixel canvas, `get_centered_x` returns -50, not the claimed clamped 0:
a draw command with a negative x-coordinate does reach the renderer. -/
theorem C1_counterexample :
    get_centered_x metricsWide 800 "wide" = -50 ∧
    get_centered_x metricsWide 800 "wide" < 0 ∧
    get_centered_x metricsWide 800 "wide" ≠ 0 := by
  refine ⟨by decide, by decide, by decide⟩

/-- Claim C1 (amended): whenever `0 ≤ measured_width ≤ canvas_width`, the
x-coordinate computed by `get_centered_x` satisfies
`0 ≤ x ≤ canvas_width - measured_width`; but when
`measured_width > canvas_width` the result is the negative
`(canvas_width - measured_width) // 2` — it is not clamped to 0. -/
theorem C1_centered_x (m : Metrics) (width : Int) (t : String) :
    (measuredWidth m t ≤ width →
      0 ≤ get_centered_x m width t ∧
      get_centered_x m width t ≤ width - measuredWidth m t) ∧
    (width < measuredWidth m t → get_centered_x m width t < 0) := by
  unfold get_centered_x
  rw [Int.fdiv_eq_ediv _ (by norm_num)]
  constructor
  · intro h
    constructor <;> omega
  · intro h
    omega

/-- Claim C1, witness: the amended theorem applied to a 100-pixel-wide
string on the 800-pixel canvas. -/
theorem C1_centered_x_witness :
    0 ≤ get_centered_x metricsFit 800 "t" ∧
    get_centered_x metricsFit 800 "t" ≤ 800 - measuredWidth metricsFit "t" :=
  (C1_centered_x metricsFit 800 "t").1 (by decide)

/-! ## Claim C7: measurement failover -/

/-- A metrics oracle for an older PIL: `textbbox` is absent (every call
raises, caught by the bare except), only `textsize` answers. -/
def metricsLegacy : Metrics :=
  { textbbox := fun _ => none, textsize := fun _ => (100, 40) }

/-- Claim C7: text measurement is total — `get_centered_x` is a function
returning an x for every metrics oracle, canvas width and string — and
when the precise `textbbox` API is unavailable or fails, the width falls
over to the `textsize` estimate and the centering computation still
completes, with no error propagating. -/
theorem C7_measure_failover (m : Metrics) (width : Int) (t : String)
    (h : m.textbbox t = none) :
    measuredWidth m t = ((m.textsize t).1 : Int) ∧
    get_centered_x m width t =
      Int.fdiv (width - ((m.textsize t).1 : Int)) 2 := by
  simp [get_centered_x, measuredWidth, h]

/-- Claim C7, witness: the failover theorem applied to the legacy-PIL
oracle on the 800-pixel canvas. -/
theorem C7_measure_failover_witness :
    measuredWidth metricsLegacy "t" = ((metricsLegacy.textsize "t").1 : Int) ∧
    get_centered_x metricsLegacy 800 "t" =
      Int.fdiv (800 - ((metricsLegacy.textsize "t").1 : Int)) 2 :=
  C7_measure_failover metricsLegacy 800 "t" rfl

end PhotoCalendar

namespace PhotoCalendar

/-! ## Claim C2: the create_test_event_image detail loop on a blank line -/

/-- Claim C2, counterexample: on the input
`["", "Date: 2025-02-15", "Location: Hall A"]` the loop does NOT emit the
claimed pair `text-at(50,120,"Date: 2025-02-15")`,
`text-at(50,155,"Location: Hall A")`: it emits three commands, one of them
for the blank line. -/
theorem C2_counterexample :
    eventDetails ["", "Date: 2025-02-15", "Location: Hall A"] ≠
      [{ x := 50, y := 120, text := "Date: 2025-02-15",
         color := Color.named "black", anchor := none },
       { x := 50, y := 155, text := "Location: Hall A",
         color := Color.named "black", anchor := none }] ∧
    (eventDetails ["", "Date: 2025-02-15", "Location: Hall A"]).length = 3 := by
  refine ⟨by decide, by decide⟩

/-- Claim C2 (amended): the loop emits a text command for every line,
including the blank first line, each at x = 50, the cursor advancing by 35
per line: the commands are exactly `text-at(50,120,"")`,
`text-at(50,155,"Date: 2025-02-15")`, `text-at(50,190,"Location: Hall A")`. -/
theorem C2_event_details :
    eventDetails ["", "Date: 2025-02-15", "Location: Hall A"] =
      [{ x := 50, y := 120, text := "",
         color := Color.named "black", anchor := none },
       { x := 50, y := 155, text := "Date: 2025-02-15",
         color := Color.named "black", anchor := none },
       { x := 50, y := 190, text := "Location: Hall A",
         color := Color.named "black", anchor := none }] := rfl

/-! ## Claim C3: font resolution error policy -/

/-- A host on which every candidate path exists but only `second.ttf`
loads without error. -/
def hostLoadFail : FontHost :=
  { pathExists := fun _ => true, loadOk := fun p _ => p == "second.ttf" }

/-- A host on which no font path exists. -/
def hostEmpty : FontHost :=
  { pathExists := fun _ => false, loadOk := fun _ _ => true }

/-- Claim C3, counterexample: when loading the first existing candidate
`first.ttf` raises, resolution does NOT proceed to the loadable next
candidate `second.ttf`: the exception lands in the outer `except:` and the
default font is returned, abandoning the remaining candidates. -/
theorem C3_counterexample :
    resolveFont hostLoadFail ["first.ttf", "second.ttf"] 32 =
      ResolvedFont.loadDefault ∧
    resolveFont hostLoadFail ["first.ttf", "second.ttf"] 32 ≠
      ResolvedFont.truetype "second.ttf" 32 := by
  refine ⟨by decide, by decide⟩

/-- Claim C3 (amended): font resolution never raises to its caller (it is
a total function into `ResolvedFont`); when every candidate path is absent
it returns the default font; and an error loading the first existing
candidate is swallowed but resolution falls back directly to the default
font, abandoning the remaining candidates rather than trying them. -/
theorem C3_resolution (host : FontHost) (cands : List String) (size : Nat) :
    ((∀ p ∈ cands, host.pathExists p = false) →
      resolveFont host cands size = ResolvedFont.loadDefault) ∧
    (∀ p, firstExisting host cands = some p → host.loadOk p size = false →
      resolveFont host cands size = ResolvedFont.loadDefault) := by
  constructor
  · intro h
    have hnone : firstExisting host cands = none := by
      induction cands with
      | nil => rfl
      | cons a rest ih =>
        have ha := h a (by simp)
        have ihr := ih fun p hp => h p (by simp [hp])
        simp [firstExisting, ha, ihr]
    simp [resolveFont, hnone]
  · intro p hp hload
    simp [resolveFont, hp, hload]

/-- Claim C3, witness: the amended theorem applied to a host with no
existing font path and a two-candidate list. -/
theorem C3_resolution_witness :
    resolveFont hostEmpty ["a.ttf", "b.ttf"] 32 = ResolvedFont.loadDefault :=
  (C3_resolution hostEmpty ["a.ttf", "b.ttf"] 32).1 (by decide)

/-! ## Claim C8: determinism of font resolution -/

/-- Claim C8: font resolution is deterministic and idempotent. In a
sequence of resolutions within one process, the result of each call is
exactly `resolveFont` of its own candidate list and size, for fixed host
filesystem facts — independent of the calls before and after it; in
particular resolving the same request twice yields the same font. -/
theorem C8_resolution_deterministic (host : FontHost)
    (pre post : List (List String × Nat)) (cands : List String) (size : Nat) :
    runResolutions host (pre ++ (cands, size) :: post) =
      runResolutions host pre ++
        resolveFont host cands size :: runResolutions host post := by
  simp [runResolutions]

end PhotoCalendar

namespace PhotoCalendar

/-! ## The concert loop: shared helper -/

/-- Every command the concert loop emits carries the x and color the loop
computes from its own text: `x_position = 50 if line.startswith(...) else
width//2 - 150` and the keyword color rule. -/
theorem concertLoop_mem (lines : List String) (y0 : Int) :
    ∀ cmd ∈ concertLoop y0 lines,
      cmd.x = concertX cmd.text ∧ cmd.color = concertColor cmd.text := by
  induction lines generalizing y0 with
  | nil => intro cmd h; simp [concertLoop] at h
  | cons a rest ih =>
    intro cmd h
    simp only [concertLoop] at h
    rcases List.mem_cons.mp h with h | h
    · subst h; exact ⟨rfl, rfl⟩
    · exact ih (y0 + 40) cmd h

/-! ## Claim C4: bullet lines and the left margin -/

/-- Claim C4, counterexample: in test-images/test-event.py the bullet line
`"• AI & Machine Learning"` is drawn at x = width//2 = 400 with the
centering anchor `'mt'`, not at the fixed left margin 50. -/
theorem C4_counterexample :
    (testEventCommands.get? 6).map TextCmd.text =
      some "• AI & Machine Learning" ∧
    pyStartsWith "• AI & Machine Learning" "•" = true ∧
    (testEventCommands.get? 6).map TextCmd.x = some 400 ∧
    (testEventCommands.get? 6).map TextCmd.x ≠ some 50 ∧
    (testEventCommands.get? 6).map TextCmd.anchor = some (some "mt") := by
  refine ⟨by decide, by decide, by decide, by decide, by decide⟩

/-- Claim C4 (amended): in `create_concert_poster`, every emitted command
whose payload starts with the bullet marker uses the fixed left-margin
x-coordinate 50, regardless of the centered placement used for the other
lines; in test-images/test-event.py, however, bullet lines are drawn
centered at x = width//2 = 400 with anchor `'mt'`, so the property holds
for the concert-poster loop, not for every generator. -/
theorem C4_bullets_left_margin (lines : List String) (y0 : Int) :
    ∀ cmd ∈ concertLoop y0 lines,
      pyStartsWith cmd.text "•" = true → cmd.x = 50 := by
  intro cmd hmem hb
  rcases concertLoop_mem lines y0 cmd hmem with ⟨hx, _⟩
  rw [hx]
  simp [concertX, hb]

/-- Claim C4, witness: the amended theorem applied to the bullet line
`"• BTS"` of `concert_info`. -/
theorem C4_bullets_left_margin_witness :
    ({ x := concertX "• BTS", y := 300, text := "• BTS",
       color := concertColor "• BTS", anchor := none } : TextCmd).x = 50 :=
  C4_bullets_left_margin ["• BTS"] 300 _ (by simp [concertLoop]) (by decide)

/-! ## Claim C5: highlight color rule -/

/-- Claim C5: a line matched by the highlight predicate (containing the
keyword `티켓` or `가격`) always renders in the accent color `#f39c12`;
every non-matching line renders in the default text color `white` (no line
in this script carries an explicit per-line color). -/
theorem C5_highlight_color (lines : List String) (y0 : Int) :
    ∀ cmd ∈ concertLoop y0 lines,
      ((pyIn "티켓" cmd.text || pyIn "가격" cmd.text) = true →
        cmd.color = Color.named "#f39c12") ∧
      ((pyIn "티켓" cmd.text || pyIn "가격" cmd.text) = false →
        cmd.color = Color.named "white") := by
  intro cmd hmem
  rcases concertLoop_mem lines y0 cmd hmem with ⟨_, hc⟩
  constructor
  · intro hh; rw [hc]; simp [concertColor, hh]
  · intro hh; rw [hc]; simp [concertColor, hh]

/-- Claim C5, witness: the highlight theorem applied to the price line of
`concert_info`. -/
theorem C5_highlight_color_witness :
    ({ x := concertX "가격: 99,000원 ~ 150,000원", y := 300,
       text := "가격: 99,000원 ~ 150,000원",
       color := concertColor "가격: 99,000원 ~ 150,000원",
       anchor := none } : TextCmd).color = Color.named "#f39c12" :=
  (C5_highlight_color ["가격: 99,000원 ~ 150,000원"] 300 _
    (by simp [concertLoop])).1 (by decide)

/-! ## Claim C10: non-bullet lines get a content-independent x -/

/-- Claim C10: in `create_concert_poster`, every emitted command whose
payload does not start with the bullet marker has the fixed x-coordinate
`width//2 - 150 = 250`, independent of the line's content — the centered
placement of this script never invokes text measurement. -/
theorem C10_nonbullet_fixed_x (lines : List String) (y0 : Int) :
    ∀ cmd ∈ concertLoop y0 lines,
      pyStartsWith cmd.text "•" = false → cmd.x = 250 := by
  intro cmd hmem hb
  rcases concertLoop_mem lines y0 cmd hmem with ⟨hx, _⟩
  rw [hx]
  simp [concertX, hb]

/-- Claim C10, witness: the fixed-x theorem applied to the date line of
`concert_info`. -/
theorem C10_nonbullet_fixed_x_witness :
    ({ x := concertX "2025년 3월 22일 토요일", y := 300,
       text := "2025년 3월 22일 토요일",
       color := concertColor "2025년 3월 22일 토요일",
       anchor := none } : TextCmd).x = 250 :=
  C10_nonbullet_fixed_x ["2025년 3월 22일 토요일"] 300 _
    (by simp [concertLoop]) (by decide)

end PhotoCalendar

namespace PhotoCalendar

/-! ## Claim C6: persistence and missing directories -/

/-- A writable filesystem on which the `test-images` output directory does
not exist. -/
def fsNoDir : FS := { dirs := ["."], writable := true }

/-- Claim C6, counterexample: `create_test_image` persists with a bare
`img.save(filename)` and creates no directory, so with output path
`test-images/concert.png` and no `test-images` directory the save fails
with a missing-directory error instead of creating the directory and
succeeding. -/
theorem C6_counterexample :
    createTestImagePersist fsNoDir ⟨"test-images", "concert.png"⟩ =
      SaveResult.dirMissing ∧
    createTestImagePersist fsNoDir ⟨"test-images", "concert.png"⟩ ≠
      SaveResult.ok := by
  refine ⟨by decide, by decide⟩

/-- Claim C6 (amended): the persist step itself (`image.save`) creates no
directories. The `__main__` of create-test-event-image.py pre-creates its
output directory with `os.makedirs(..., exist_ok=True)`, so on a writable
filesystem its saves succeed even when the directory was absent; but
`create_test_image` saves with no directory creation and fails with a
missing-directory error when the parent is absent. An unwritable location
makes the save raise an uncaught, caller-visible error, with no retry. -/
theorem C6_persist (fs : FS) (f : String) (p : OutPath) :
    (fs.writable = true → eventImageMainPersist fs f = SaveResult.ok) ∧
    (fs.dirs.contains p.dir = false →
      createTestImagePersist fs p = SaveResult.dirMissing) ∧
    (fs.dirs.contains p.dir = true → fs.writable = false →
      createTestImagePersist fs p = SaveResult.notWritable) := by
  refine ⟨?_, ?_, ?_⟩
  · intro hw
    by_cases h : "test-images" ∈ fs.dirs
    · simp [eventImageMainPersist, imageSave, makedirs, h, hw]
    · simp [eventImageMainPersist, imageSave, makedirs, h, hw]
  · intro h
    have h2 : p.dir ∉ fs.dirs := by simpa using h
    simp [createTestImagePersist, imageSave, h2]
  · intro h hw
    have h2 : p.dir ∈ fs.dirs := by simpa using h
    simp [createTestImagePersist, imageSave, h2, hw]

/-- Claim C6, witness: the amended theorem applied to the writable
filesystem without a `test-images` directory — the makedirs-then-save flow
succeeds there. -/
theorem C6_persist_witness :
    eventImageMainPersist fsNoDir "concert.png" = SaveResult.ok :=
  (C6_persist fsNoDir "concert.png" ⟨"test-images", "x.png"⟩).1 rfl

/-! ## Claim C9: corner ornaments -/

/-- Claim C9: drawing the four corner ornaments of `create_korean_poster`
is total for both renderer capabilities. With arc support each corner gets
a quarter-arc (0 to 90 degrees, stroke width 3) over its 50x50 box;
without it, each corner degrades to the fixed 10-pixel solid square, and
nothing raises. -/
theorem C9_corner_ornaments :
    cornerOrnaments true =
      [Ornament.arc 50 50 100 100 0 90 3,
       Ornament.arc 700 50 750 100 0 90 3,
       Ornament.arc 50 1100 100 1150 0 90 3,
       Ornament.arc 700 1100 750 1150 0 90 3] ∧
    cornerOrnaments false =
      [Ornament.square 50 50 60 60,
       Ornament.square 700 50 710 60,
       Ornament.square 50 1100 60 1110,
       Ornament.square 700 1100 710 1110] := by
  refine ⟨by decide, by decide⟩

end PhotoCalendar
